import Mathlib

/-!
Shallow embedding of the readelf-rs ELF-header decoder and report renderer
(src/elf.rs, src/main.rs).

Byte buffers are modelled as `List Nat` (each element one byte).  Reads past
the end of the buffer — which in the source are out-of-bounds accesses through
an overlaid `repr(C)` struct reference into the memory map — are modelled by
`Option`: a `none` result means the program read past the end of its buffer,
a value the language does not define.  Fallible decoding is `Except ElfError`.
The host byte order (`cfg!(target_endian = "little")` in the source) is an
explicit `isLittle : Bool` parameter.
-/

namespace ReadelfRs

/-- The 4 ELF magic bytes `\x7fELF` compared by `ElfFile::new`. -/
def elfMagic : List Nat := [0x7f, 0x45, 0x4c, 0x46]

/-- The three failure modes raised by `ElfFile::new` via `bail!`:
`badMagic` = "Not a valid ELF file", `endianMismatch` = "ELF file endianess
does not match the platform\x27s endianess", `invalidClass` = "Invalid ELF
class (not 32-bit or 64-bit)". -/
inductive ElfError where
  | badMagic
  | endianMismatch
  | invalidClass
  deriving DecidableEq, Repr

/-- The tag of the `ElfHeader` enum: `Elf32(&Elf32Header)` or
`Elf64(&Elf64Header)`.  The borrowed header reference is a view into the
buffer, so the tag plus the buffer determine every field. -/
inductive ElfHeaderTag where
  | elf32
  | elf64
  deriving DecidableEq, Repr

/-- The `ElfFile` struct: it owns the memory map and borrows the ident and
header views from it, so the model keeps the whole buffer plus the variant
tag chosen at construction. -/
structure ElfFile where
  buf : List Nat
  header : ElfHeaderTag
  deriving DecidableEq, Repr

/-- Read `n` consecutive bytes starting at `off`; `none` if any index is past
the end of the buffer. -/
def bytesAt (buf : List Nat) (off n : Nat) : Option (List Nat) :=
  (List.range n).mapM (fun i => buf[off + i]?)

/-- Combine bytes least-significant-first into a number. -/
def combineLE (bs : List Nat) : Nat :=
  bs.foldr (fun b acc => b + 256 * acc) 0

/-- Read an `n`-byte unsigned integer at `off` in the host byte order, the
way a field of an overlaid `repr(C)` struct is read by the host CPU. -/
def readHost (isLittle : Bool) (buf : List Nat) (off n : Nat) : Option Nat :=
  (bytesAt buf off n).map (fun bs => combineLE (if isLittle then bs else bs.reverse))

/-- The `ElfIdent` struct: the 16-byte identification block at offset 0. -/
structure ElfIdent where
  magic : List Nat
  cls : Nat
  data : Nat
  version : Nat
  os_abi : Nat
  abi_version : Nat
  padding : List Nat
  deriving DecidableEq, Repr

/-- Overlay of `ElfIdent` at offset 0: magic at 0..3, class at 4, data at 5,
version at 6, os_abi at 7, abi_version at 8, padding at 9..15. -/
def parseElfIdent (buf : List Nat) : Option ElfIdent := do
  let magic ← bytesAt buf 0 4
  let cls ← buf[4]?
  let data ← buf[5]?
  let version ← buf[6]?
  let os_abi ← buf[7]?
  let abi_version ← buf[8]?
  let padding ← bytesAt buf 9 7
  pure ⟨magic, cls, data, version, os_abi, abi_version, padding⟩

/-- Fields of the `Elf64Header` struct (e_type and e_machine kept as raw
16-bit codes, as in the source where `ElfType` and `EMachine` are
`repr(transparent)` wrappers over `u16`). -/
structure Elf64Header where
  e_ident : ElfIdent
  e_type : Nat
  e_machine : Nat
  e_version : Nat
  e_entry : Nat
  e_phoff : Nat
  e_shoff : Nat
  e_flags : Nat
  e_ehsize : Nat
  e_phentsize : Nat
  e_phnum : Nat
  e_shentsize : Nat
  e_shnum : Nat
  e_shstrndx : Nat
  deriving DecidableEq, Repr

/-- Fields of the `Elf32Header` struct: same field set, but `e_entry`,
`e_phoff` and `e_shoff` are 4-byte integers. -/
structure Elf32Header where
  e_ident : ElfIdent
  e_type : Nat
  e_machine : Nat
  e_version : Nat
  e_entry : Nat
  e_phoff : Nat
  e_shoff : Nat
  e_flags : Nat
  e_ehsize : Nat
  e_phentsize : Nat
  e_phnum : Nat
  e_shentsize : Nat
  e_shnum : Nat
  e_shstrndx : Nat
  deriving DecidableEq, Repr

/-- Overlay of `Elf64Header` (repr(C) layout, 64 bytes): ident at 0..15,
e_type u16 at 16, e_machine u16 at 18, e_version u32 at 20, e_entry u64 at
24, e_phoff u64 at 32, e_shoff u64 at 40, e_flags u32 at 48, then six u16
fields at 52..63. -/
def parseElf64Header (isLittle : Bool) (buf : List Nat) : Option Elf64Header := do
  let e_ident ← parseElfIdent buf
  let e_type ← readHost isLittle buf 16 2
  let e_machine ← readHost isLittle buf 18 2
  let e_version ← readHost isLittle buf 20 4
  let e_entry ← readHost isLittle buf 24 8
  let e_phoff ← readHost isLittle buf 32 8
  let e_shoff ← readHost isLittle buf 40 8
  let e_flags ← readHost isLittle buf 48 4
  let e_ehsize ← readHost isLittle buf 52 2
  let e_phentsize ← readHost isLittle buf 54 2
  let e_phnum ← readHost isLittle buf 56 2
  let e_shentsize ← readHost isLittle buf 58 2
  let e_shnum ← readHost isLittle buf 60 2
  let e_shstrndx ← readHost isLittle buf 62 2
  pure ⟨e_ident, e_type, e_machine, e_version, e_entry, e_phoff, e_shoff, e_flags,
        e_ehsize, e_phentsize, e_phnum, e_shentsize, e_shnum, e_shstrndx⟩

/-- Overlay of `Elf32Header` (repr(C) layout, 52 bytes): ident at 0..15,
e_type u16 at 16, e_machine u16 at 18, e_version u32 at 20, e_entry u32 at
24, e_phoff u32 at 28, e_shoff u32 at 32, e_flags u32 at 36, then six u16
fields at 40..51. -/
def parseElf32Header (isLittle : Bool) (buf : List Nat) : Option Elf32Header := do
  let e_ident ← parseElfIdent buf
  let e_type ← readHost isLittle buf 16 2
  let e_machine ← readHost isLittle buf 18 2
  let e_version ← readHost isLittle buf 20 4
  let e_entry ← readHost isLittle buf 24 4
  let e_phoff ← readHost isLittle buf 28 4
  let e_shoff ← readHost isLittle buf 32 4
  let e_flags ← readHost isLittle buf 36 4
  let e_ehsize ← readHost isLittle buf 40 2
  let e_phentsize ← readHost isLittle buf 42 2
  let e_phnum ← readHost isLittle buf 44 2
  let e_shentsize ← readHost isLittle buf 46 2
  let e_shnum ← readHost isLittle buf 48 2
  let e_shstrndx ← readHost isLittle buf 50 2
  pure ⟨e_ident, e_type, e_machine, e_version, e_entry, e_phoff, e_shoff, e_flags,
        e_ehsize, e_phentsize, e_phnum, e_shentsize, e_shnum, e_shstrndx⟩

/-- The body of `ElfFile::new`, after the external file open and memory map
succeed.  It checks the magic (length ≥ 4 and the first 4 bytes), reads
`ident.data` (byte 5) for the endianness check against the host order, then
matches on `ident.class` (byte 4) to pick the header variant.  There is no
length check beyond the 4 magic bytes; `none` models a read past the end of
the buffer. -/
def elfNew (isLittle : Bool) (buf : List Nat) : Option (Except ElfError ElfFile) :=
  if buf.length < 4 ∨ buf.take 4 ≠ elfMagic then
    some (Except.error ElfError.badMagic)
  else
    match buf[5]? with
    | none => none
    | some d =>
      if (d == 1) != isLittle then
        some (Except.error ElfError.endianMismatch)
      else
        match buf[4]? with
        | none => none
        | some c =>
          if c = 1 then some (Except.ok ⟨buf, ElfHeaderTag.elf32⟩)
          else if c = 2 then some (Except.ok ⟨buf, ElfHeaderTag.elf64⟩)
          else some (Except.error ElfError.invalidClass)

/-- Lowercase hexadecimal digits of `n`, no leading zeros (`{:x}` in Rust). -/
def hexStr (n : Nat) : String :=
  String.mk (Nat.toDigits 16 n)

/-- Two-digit lowercase hexadecimal (`{:02x}` in Rust, for byte values). -/
def hex2 (b : Nat) : String :=
  if b < 16 then "0" ++ hexStr b else hexStr b

/-- The `fmt::Display` impl for `ElfType`: maps the raw 16-bit code to its
label string. -/
def elfTypeDisplay (t : Nat) : String :=
  if t = 0 then "NONE (None)"
  else if t = 1 then "REL (Relocatable file)"
  else if t = 2 then "EXEC (Executable file)"
  else if t = 3 then "DYN (FIXME)"
  else if t = 4 then "CORE (Core file)"
  else if 0xfe00 ≤ t ∧ t ≤ 0xfeff then "OS Specific: (0x" ++ hexStr t ++ ")"
  else if 0xff00 ≤ t ∧ t ≤ 0xffff then "Processor Specific: (0x" ++ hexStr t ++ ")"
  else "<unknown>: 0x" ++ hexStr t

/-- Modelled from the spec: the machine-code label resolver lives in
`src/emachine.rs`, which is not present in the repository (the spec treats
the architecture-name table as an opaque external lookup).  The spec fixes
only the fallback — unknown codes render as `<unknown>: (0x<code>)` rather
than failing — so every code is modelled through that fallback.  No claim is
decided by this line of the report. -/
def emachineDisplay (m : Nat) : String :=
  "<unknown>: (0x" ++ hexStr m ++ ")"

/-- The `Class:` value from the `fmt::Display` impl for `ElfFile`. -/
def classDisplay (c : Nat) : String :=
  if c = 1 then "ELF32" else if c = 2 then "ELF64" else "Unknown"

/-- The `Data:` value from the `fmt::Display` impl for `ElfFile`. -/
def dataDisplay (d : Nat) : String :=
  if d = 1 then "2\x27s complement, little endian"
  else if d = 2 then "2\x27s complement, big endian"
  else "Unknown"

/-- The thirteen lines produced by the `display_header!` macro, identical for
both variant instantiations. -/
def displayHeaderLines (e_type e_machine e_version e_entry e_phoff e_shoff e_flags
    e_ehsize e_phentsize e_phnum e_shentsize e_shnum e_shstrndx : Nat) : List String :=
  [ "  Type:                              " ++ elfTypeDisplay e_type,
    "  Machine:                           " ++ emachineDisplay e_machine,
    "  Version:                           " ++ toString e_version,
    "  Entry point address:               0x" ++ hexStr e_entry,
    "  Start of program headers:          " ++ toString e_phoff ++ " (bytes into file)",
    "  Start of section headers:          " ++ toString e_shoff ++ " (bytes into file)",
    "  Flags:                             0x" ++ hexStr e_flags,
    "  Size of this header:               " ++ toString e_ehsize ++ " (bytes)",
    "  Size of program headers:           " ++ toString e_phentsize ++ " (bytes)",
    "  Number of program headers:         " ++ toString e_phnum,
    "  Size of section headers:           " ++ toString e_shentsize ++ " (bytes)",
    "  Number of section headers:         " ++ toString e_shnum,
    "  Section header string table index: " ++ toString e_shstrndx ]

/-- The lines of the `fmt::Display` impl for `ElfFile`, in order: the
`ELF Header:` banner, the Magic line (hex dump of `ident.magic` chained with
`ident.padding` — 11 bytes, not the full 16), Class, Data, ident Version,
the fixed OS/ABI label, ABI Version, then the thirteen header-field lines of
the variant selected at construction.  Every ident and header field read is
through a borrowed view into the buffer, so a buffer too short for the
selected variant makes the rendering read out of bounds (`none`). -/
def elfFileFieldLines (isLittle : Bool) (f : ElfFile) : Option (List String) := do
  let ident ← parseElfIdent f.buf
  let headerLines ←
    match f.header with
    | ElfHeaderTag.elf32 => do
        let h ← parseElf32Header isLittle f.buf
        pure (displayHeaderLines h.e_type h.e_machine h.e_version h.e_entry h.e_phoff
          h.e_shoff h.e_flags h.e_ehsize h.e_phentsize h.e_phnum h.e_shentsize
          h.e_shnum h.e_shstrndx)
    | ElfHeaderTag.elf64 => do
        let h ← parseElf64Header isLittle f.buf
        pure (displayHeaderLines h.e_type h.e_machine h.e_version h.e_entry h.e_phoff
          h.e_shoff h.e_flags h.e_ehsize h.e_phentsize h.e_phnum h.e_shentsize
          h.e_shnum h.e_shstrndx)
  pure ([ "  Magic:   " ++ String.intercalate " " ((ident.magic ++ ident.padding).map hex2),
          "  Class:                             " ++ classDisplay ident.cls,
          "  Data:                              " ++ dataDisplay ident.data,
          "  Version:                           " ++ toString ident.version ++ " (current)",
          "  OS/ABI:                            UNIX - System V",
          "  ABI Version:                       " ++ toString ident.abi_version ]
        ++ headerLines)

/-- The full line list of the `fmt::Display` impl for `ElfFile`: the
`ELF Header:` banner is written first (before any field of the borrowed
views is read), then the field lines. -/
def elfFileDisplayLines (isLittle : Bool) (f : ElfFile) : Option (List String) :=
  match elfFileFieldLines isLittle f with
  | none => none
  | some rest => some ("ELF Header:" :: rest)

/-- Join lines the way consecutive `writeln!` calls do: each line followed by
a newline. -/
def joinLines : List String → String
  | [] => ""
  | l :: ls => l ++ "\n" ++ joinLines ls

/-- The full string produced by the `fmt::Display` impl for `ElfFile`. -/
def elfFileDisplay (isLittle : Bool) (f : ElfFile) : Option String :=
  (elfFileDisplayLines isLittle f).map joinLines

/-- Everything `main` writes to standard output: on a decode error nothing
reaches stdout (the `?` operator returns the error, which is reported on
stderr); on success, first the `Successfully memory-mapped ELF file: <path>`
banner with its newline, then `println!("{}", elf_file)` — the Display output
followed by one more newline.  `none` again models an out-of-bounds read. -/
def mainStdout (isLittle : Bool) (path : String) (buf : List Nat) : Option String :=
  match elfNew isLittle buf with
  | none => none
  | some (Except.error _) => some ""
  | some (Except.ok f) =>
    match elfFileDisplay isLittle f with
    | none => none
    | some s =>
        some ("Successfully memory-mapped ELF file: " ++ path ++ "\n" ++ s ++ "\n")

/-- The minimal synthetic 64-byte fixture of the end-to-end scenario:
magic, class=2, data=1, version=1, e_type=2, e_machine=0x3e,
e_entry=0x401020, all remaining bytes zero. -/
def c6buf : List Nat :=
  [0x7f, 0x45, 0x4c, 0x46, 2, 1, 1, 0, 0, 0, 0, 0, 0, 0, 0, 0,
   2, 0, 0x3e, 0, 0, 0, 0, 0, 0x20, 0x10, 0x40, 0, 0, 0, 0, 0]
  ++ List.replicate 32 0

/-- The `ElfFile` value decoded from `c6buf` on a little-endian host. -/
def c6file : ElfFile := ⟨c6buf, ElfHeaderTag.elf64⟩

/-- A 10-byte buffer passing the magic, endianness and class checks:
magic, class=1, data=1, version=1, then three zero bytes. -/
def buf10 : List Nat := [0x7f, 0x45, 0x4c, 0x46, 1, 1, 1, 0, 0, 0]

/-- A second 10-byte buffer selecting the 64-bit variant: magic, class=2,
data=1, version=1, then three zero bytes. -/
def buf10b : List Nat := [0x7f, 0x45, 0x4c, 0x46, 2, 1, 1, 0, 0, 0]

/-- Helper: whenever the Display rendering succeeds, its first line is the
`ELF Header:` banner. -/
theorem elfFileDisplayLines_head (isLittle : Bool) (f : ElfFile) (ls : List String)
    (h : elfFileDisplayLines isLittle f = some ls) :
    ∃ tail, ls = "ELF Header:" :: tail := by
  unfold elfFileDisplayLines at h
  cases hr : elfFileFieldLines isLittle f with
  | none =>
    rw [hr] at h
    exact Option.noConfusion h
  | some rest =>
    simp only [hr, Option.some.injEq] at h
    exact ⟨rest, h.symm⟩

/-- Helper: a buffer whose first 4 bytes are the magic has length at least 4. -/
theorem length_ge_four_of_magic (buf : List Nat) (hm : buf.take 4 = elfMagic) :
    4 ≤ buf.length := by
  have hl := congrArg List.length hm
  simp [List.length_take, elfMagic] at hl
  omega

/-- Helper: the magic condition of `elfNew` fails on a buffer whose first
4 bytes are the magic. -/
theorem magic_cond_false (buf : List Nat) (hm : buf.take 4 = elfMagic) :
    ¬ (buf.length < 4 ∨ buf.take 4 ≠ elfMagic) := by
  push_neg
  exact ⟨length_ge_four_of_magic buf hm, hm⟩

/-- C1: the spec requires buffers shorter than the selected header variant
(52 or 64 bytes) to fail with a Truncated error; the code performs no such
length check.  A 10-byte buffer that passes the magic, endianness and class
checks is decoded successfully for either class, and rendering the report
then reads past the end of the buffer (modelled as `none`) instead of any
error being raised. -/
theorem C1_truncated_buffers_not_rejected :
    elfNew true buf10 = some (Except.ok (⟨buf10, ElfHeaderTag.elf32⟩ : ElfFile)) ∧
    elfFileDisplayLines true (⟨buf10, ElfHeaderTag.elf32⟩ : ElfFile) = none ∧
    elfNew true buf10b = some (Except.ok (⟨buf10b, ElfHeaderTag.elf64⟩ : ElfFile)) ∧
    elfFileDisplayLines true (⟨buf10b, ElfHeaderTag.elf64⟩ : ElfFile) = none :=
  ⟨rfl, rfl, rfl, rfl⟩

/-- C2 counterexample: with valid magic, class byte 3 and data_encoding 2 on
a little-endian host, decoding fails with the endianness error, not the
invalid-class error — the class check is not decided before the endianness
check, and so does not fire regardless of the data_encoding byte. -/
theorem C2_counterexample :
    elfNew true [0x7f, 0x45, 0x4c, 0x46, 3, 2] =
      some (Except.error ElfError.endianMismatch) ∧
    ElfError.endianMismatch ≠ ElfError.invalidClass :=
  ⟨rfl, by decide⟩

/-- C2 amended: for every buffer with valid magic whose data_encoding byte
matches the host byte order, a class byte outside {1, 2} fails with the
invalid-class error; the endianness check is decided before the class check. -/
theorem C2_invalid_class_rejected (isLittle : Bool) (buf : List Nat) (d c : Nat)
    (hm : buf.take 4 = elfMagic) (hd : buf[5]? = some d)
    (he : (d == 1) = isLittle) (hc : buf[4]? = some c)
    (h1 : c ≠ 1) (h2 : c ≠ 2) :
    elfNew isLittle buf = some (Except.error ElfError.invalidClass) := by
  have hcond := magic_cond_false buf hm
  unfold elfNew
  rw [if_neg hcond]
  simp only [hd, he, bne_self_eq_false, Bool.false_eq_true, if_false, hc]
  rw [if_neg h1, if_neg h2]

/-- C2 witness: the amended statement at a concrete buffer. -/
theorem C2_invalid_class_rejected_witness :
    elfNew true [0x7f, 0x45, 0x4c, 0x46, 3, 1] =
      some (Except.error ElfError.invalidClass) :=
  C2_invalid_class_rejected true [0x7f, 0x45, 0x4c, 0x46, 3, 1] 1 3
    (by decide) (by decide) (by decide) (by decide) (by decide) (by decide)

/-- C3 counterexample: the resolver renders code 3 as `DYN (FIXME)`, not
`DYN (shared object file)`, and code 0x9999 as `<unknown>: 0x9999` without
the parentheses the claim states. -/
theorem C3_counterexample :
    elfTypeDisplay 3 = "DYN (FIXME)" ∧
    "DYN (FIXME)" ≠ "DYN (shared object file)" ∧
    elfTypeDisplay 0x9999 = "<unknown>: 0x9999" ∧
    "<unknown>: 0x9999" ≠ "<unknown>: (0x9999)" :=
  ⟨rfl, by decide, rfl, by decide⟩

/-- C3 amended: the resolver is a pure function of the 16-bit code with the
table the code implements: 0 ↦ `NONE (None)`, 1 ↦ `REL (Relocatable file)`,
2 ↦ `EXEC (Executable file)` (so code 2 contains the substring `EXEC`),
3 ↦ `DYN (FIXME)`, 4 ↦ `CORE (Core file)`, 0xFE00–0xFEFF ↦
`OS Specific: (0x<code>)`, 0xFF00–0xFFFF ↦ `Processor Specific: (0x<code>)`,
and every other code ↦ `<unknown>: 0x<code>` with no parentheses. -/
theorem C3_type_label_table :
    elfTypeDisplay 0 = "NONE (None)" ∧
    elfTypeDisplay 1 = "REL (Relocatable file)" ∧
    elfTypeDisplay 2 = "EXEC" ++ " (Executable file)" ∧
    elfTypeDisplay 3 = "DYN (FIXME)" ∧
    elfTypeDisplay 4 = "CORE (Core file)" ∧
    (∀ t, 0xfe00 ≤ t → t ≤ 0xfeff →
      elfTypeDisplay t = "OS Specific: (0x" ++ hexStr t ++ ")") ∧
    (∀ t, 0xff00 ≤ t → t ≤ 0xffff →
      elfTypeDisplay t = "Processor Specific: (0x" ++ hexStr t ++ ")") ∧
    (∀ t, t ≠ 0 → t ≠ 1 → t ≠ 2 → t ≠ 3 → t ≠ 4 →
      ¬(0xfe00 ≤ t ∧ t ≤ 0xfeff) → ¬(0xff00 ≤ t ∧ t ≤ 0xffff) →
      elfTypeDisplay t = "<unknown>: 0x" ++ hexStr t) := by
  refine ⟨rfl, rfl, rfl, rfl, rfl, ?_, ?_, ?_⟩
  · intro t h1 h2
    unfold elfTypeDisplay
    rw [if_neg (by omega), if_neg (by omega), if_neg (by omega), if_neg (by omega),
      if_neg (by omega), if_pos ⟨h1, h2⟩]
  · intro t h1 h2
    unfold elfTypeDisplay
    rw [if_neg (by omega), if_neg (by omega), if_neg (by omega), if_neg (by omega),
      if_neg (by omega), if_neg (by omega), if_pos ⟨h1, h2⟩]
  · intro t h0 h1 h2 h3 h4 hos hproc
    unfold elfTypeDisplay
    rw [if_neg h0, if_neg h1, if_neg h2, if_neg h3, if_neg h4, if_neg hos,
      if_neg hproc]

/-- C3 witness: the ranged rows of the amended table at concrete codes. -/
theorem C3_type_label_table_witness :
    elfTypeDisplay 0xfe12 = "OS Specific: (0x" ++ hexStr 0xfe12 ++ ")" ∧
    elfTypeDisplay 0xff34 = "Processor Specific: (0x" ++ hexStr 0xff34 ++ ")" ∧
    elfTypeDisplay 0x9999 = "<unknown>: 0x" ++ hexStr 0x9999 :=
  ⟨C3_type_label_table.2.2.2.2.2.1 0xfe12 (by decide) (by decide),
   C3_type_label_table.2.2.2.2.2.2.1 0xff34 (by decide) (by decide),
   C3_type_label_table.2.2.2.2.2.2.2 0x9999 (by decide) (by decide) (by decide)
     (by decide) (by decide) (by decide) (by decide)⟩

/-- C4: the spec requires the Magic line to dump all 16 bytes of the
identification area in file order; the code chains only `ident.magic`
(bytes 0–3) with `ident.padding` (bytes 9–15), omitting class, data,
version, os_abi and abi_version.  On the 64-byte fixture the rendered Magic
line holds 11 byte groups and differs from the 16-byte dump of the
identification area. -/
theorem C4_magic_line_omits_five_bytes :
    (elfFileDisplayLines true c6file).map (fun L => L[1]?) =
      some (some "  Magic:   7f 45 4c 46 00 00 00 00 00 00 00") ∧
    "  Magic:   7f 45 4c 46 00 00 00 00 00 00 00" ≠
      "  Magic:   " ++ String.intercalate " " ((c6buf.take 16).map hex2) :=
  ⟨rfl, by decide⟩

/-- C5 counterexample: on a successful run over the 64-byte fixture, the
first 11 characters written to stdout are `Successfull`, not the claimed
`ELF Header:` — the memory-map banner precedes the report. -/
theorem C5_counterexample :
    (mainStdout true "a.out" c6buf).map (fun s => s.data.take 11) =
      some ("Successfull".data) ∧
    "Successfull" ≠ "ELF Header:" :=
  ⟨rfl, by decide⟩

/-- C5 amended: on every successful run, stdout consists of the line
`Successfully memory-mapped ELF file: <path>` followed by the report, and
the report itself begins with the `ELF Header:` line; the banner is the only
text preceding the report. -/
theorem C5_stdout_banner_then_report (isLittle : Bool) (path : String)
    (buf : List Nat) (f : ElfFile) (ls : List String)
    (hnew : elfNew isLittle buf = some (Except.ok f))
    (hls : elfFileDisplayLines isLittle f = some ls) :
    mainStdout isLittle path buf =
      some ("Successfully memory-mapped ELF file: " ++ path ++ "\n" ++
        joinLines ls ++ "\n") ∧
    ∃ rest, joinLines ls = "ELF Header:" ++ rest := by
  constructor
  · simp [mainStdout, hnew, elfFileDisplay, hls]
  · obtain ⟨tail, htail⟩ := elfFileDisplayLines_head isLittle f ls hls
    subst htail
    exact ⟨"\n" ++ joinLines tail, by rw [joinLines]; rw [String.append_assoc]⟩

/-- C5 witness: the amended statement at the 64-byte fixture. -/
theorem C5_stdout_banner_then_report_witness :
    mainStdout true "a.out" c6buf =
      some ("Successfully memory-mapped ELF file: " ++ "a.out" ++ "\n" ++
        joinLines ((elfFileDisplayLines true c6file).getD []) ++ "\n") ∧
    ∃ rest, joinLines ((elfFileDisplayLines true c6file).getD []) =
      "ELF Header:" ++ rest :=
  C5_stdout_banner_then_report true "a.out" c6buf c6file
    ((elfFileDisplayLines true c6file).getD []) rfl rfl

/-- C6: decoding the minimal synthetic 64-byte fixture succeeds as Variant
64, and the report contains the exact `Type:` line `EXEC (Executable
file)`, the `Entry point address:` line `0x401020` and the `Class:` line
`ELF64`. -/
theorem C6_end_to_end_fixture :
    elfNew true c6buf = some (Except.ok c6file) ∧
    (elfFileDisplayLines true c6file).any (fun L =>
      L.contains "  Type:                              EXEC (Executable file)" &&
      L.contains "  Entry point address:               0x401020" &&
      L.contains "  Class:                             ELF64") = true :=
  ⟨rfl, by decide⟩

/-- C7: every buffer whose first 4 bytes are not exactly the ELF magic —
including every buffer shorter than 4 bytes — fails with the bad-magic
error, on either host byte order. -/
theorem C7_bad_magic_rejected (isLittle : Bool) (buf : List Nat)
    (h : buf.take 4 ≠ elfMagic) :
    elfNew isLittle buf = some (Except.error ElfError.badMagic) := by
  unfold elfNew
  rw [if_pos (Or.inr h)]

/-- C7 witness: a 3-byte buffer with wrong bytes fails with the bad-magic
error. -/
theorem C7_bad_magic_rejected_witness :
    elfNew true [0, 1, 2] = some (Except.error ElfError.badMagic) :=
  C7_bad_magic_rejected true [0, 1, 2] (by decide)

/-- C8: a data_encoding byte naming the byte order opposite to the host one
(2 on a little-endian host, 1 on a big-endian host) makes decoding fail
with the endianness-mismatch error. -/
theorem C8_opposite_endianness_rejected (isLittle : Bool) (buf : List Nat) (d : Nat)
    (hm : buf.take 4 = elfMagic) (hd : buf[5]? = some d)
    (hopp : (d = 2 ∧ isLittle = true) ∨ (d = 1 ∧ isLittle = false)) :
    elfNew isLittle buf = some (Except.error ElfError.endianMismatch) := by
  have hcond := magic_cond_false buf hm
  unfold elfNew
  rw [if_neg hcond]
  rcases hopp with ⟨rfl, rfl⟩ | ⟨rfl, rfl⟩ <;> simp only [hd] <;> rfl

/-- C8 witness: data_encoding 2 on a little-endian host is rejected. -/
theorem C8_opposite_endianness_rejected_witness :
    elfNew true [0x7f, 0x45, 0x4c, 0x46, 9, 2] =
      some (Except.error ElfError.endianMismatch) :=
  C8_opposite_endianness_rejected true [0x7f, 0x45, 0x4c, 0x46, 9, 2] 2
    (by decide) (by decide) (Or.inl ⟨rfl, rfl⟩)

/-- C9 counterexample: on a big-endian host, a buffer with valid magic,
class 2 and the invalid data_encoding byte 0 decodes successfully into a
Header Record — the check `(data == 1) != host_is_little` accepts every
value other than 1 there. -/
theorem C9_counterexample :
    elfNew false [0x7f, 0x45, 0x4c, 0x46, 2, 0] =
      some (Except.ok (⟨[0x7f, 0x45, 0x4c, 0x46, 2, 0], ElfHeaderTag.elf64⟩ : ElfFile)) :=
  rfl

/-- C9 amended: on a little-endian decoder runtime, every buffer with valid
magic whose data_encoding byte is outside {1, 2} (for example 0 or 3)
fails with the endianness-mismatch error rather than producing a Header
Record; on a big-endian runtime such values pass the endianness check. -/
theorem C9_invalid_data_rejected_on_little (buf : List Nat) (d : Nat)
    (hm : buf.take 4 = elfMagic) (hd : buf[5]? = some d)
    (h1 : d ≠ 1) (h2 : d ≠ 2) :
    elfNew true buf = some (Except.error ElfError.endianMismatch) := by
  have hcond := magic_cond_false buf hm
  have hb : (d == 1) = false := by simp [h1]
  unfold elfNew
  rw [if_neg hcond]
  simp only [hd, hb]
  rfl

/-- C9 witness: data_encoding 0 on a little-endian host is rejected. -/
theorem C9_invalid_data_rejected_on_little_witness :
    elfNew true [0x7f, 0x45, 0x4c, 0x46, 1, 0] =
      some (Except.error ElfError.endianMismatch) :=
  C9_invalid_data_rejected_on_little [0x7f, 0x45, 0x4c, 0x46, 1, 0] 0
    (by decide) (by decide) (by decide) (by decide)

/-- C10: for every successfully decoded file the variant tag is determined
solely by the class byte — Variant 32 exactly when class = 1, Variant 64
exactly when class = 2 — and the decoded value keeps the whole buffer, so
every later field read goes through the layout of that fixed variant. -/
theorem C10_variant_tag_iff_class (isLittle : Bool) (buf : List Nat) (f : ElfFile)
    (h : elfNew isLittle buf = some (Except.ok f)) :
    f.buf = buf ∧
    (f.header = ElfHeaderTag.elf32 ↔ buf[4]? = some 1) ∧
    (f.header = ElfHeaderTag.elf64 ↔ buf[4]? = some 2) := by
  unfold elfNew at h
  by_cases hmag : buf.length < 4 ∨ buf.take 4 ≠ elfMagic
  · rw [if_pos hmag] at h; simp at h
  · rw [if_neg hmag] at h
    cases h5 : buf[5]? with
    | none =>
      simp only [h5] at h
      exact Option.noConfusion h
    | some d =>
      simp only [h5] at h
      by_cases he : ((d == 1) != isLittle) = true
      · rw [if_pos he] at h; simp at h
      · rw [if_neg he] at h
        cases h4 : buf[4]? with
        | none =>
          simp only [h4] at h
          exact Option.noConfusion h
        | some c =>
          simp only [h4] at h
          by_cases hc1 : c = 1
          · subst hc1
            rw [if_pos rfl] at h
            simp only [Option.some.injEq, Except.ok.injEq] at h
            subst h
            exact ⟨rfl, by simp [h4], by simp [h4]⟩
          · rw [if_neg hc1] at h
            by_cases hc2 : c = 2
            · subst hc2
              rw [if_pos rfl] at h
              simp only [Option.some.injEq, Except.ok.injEq] at h
              subst h
              exact ⟨rfl, by simp [h4], by simp [h4]⟩
            · rw [if_neg hc2] at h
              simp at h

/-- C10 witness: the biconditionals at the decoded 64-byte fixture. -/
theorem C10_variant_tag_iff_class_witness :
    c6file.buf = c6buf ∧
    (c6file.header = ElfHeaderTag.elf32 ↔ c6buf[4]? = some 1) ∧
    (c6file.header = ElfHeaderTag.elf64 ↔ c6buf[4]? = some 2) :=
  C10_variant_tag_iff_class true c6buf c6file rfl

end ReadelfRs
